import Mathlib

/-!
Verification of enhancing/losses/vqperceptual.py (classes VQLPIPS and
VQLPIPSWithDiscriminator) over a shallow embedding.

Tensors are modelled as batches of flattened per-sample value lists over the
real numbers; the external differentiable collaborators (a perceptual network,
a StyleDiscriminator, and the torch autograd engine) are passed in as function
parameters, as the spec treats them as black-box differentiable functions.
The adversarial loss variants and the discriminator live in
enhancing/losses/layers.py, which is not part of the sources at hand; they are
modelled from the spec where noted.
-/

noncomputable section

namespace VQPerc

/-! ## Scalar primitives -/

/-- The logistic sigmoid, torch.sigmoid: 1 / (1 + exp (-x)). -/
def sigmoidR (x : ℝ) : ℝ := 1 / (1 + Real.exp (-x))

/-- torch clamp of a scalar into the interval from lo to hi. -/
def clampR (x lo hi : ℝ) : ℝ := max lo (min x hi)

/-- torch.logit with an eps argument: the input is clamped into
the closed interval from eps to 1 - eps, then log (x / (1 - x)) is taken
(vqperceptual.py lines 38 and 103, eps = 1e-4). -/
def logitR (eps x : ℝ) : ℝ :=
  let z := clampR x eps (1 - eps)
  Real.log (z / (1 - z))

/-- torch.relu: max x 0. -/
def reluR (x : ℝ) : ℝ := max x 0

/-- softplus, log (1 + exp x); binary cross entropy with logits against the
label 1 is softplus (-x), against the label 0 it is softplus x. -/
def softplusR (x : ℝ) : ℝ := Real.log (1 + Real.exp x)

/-- Mean of a plain list of scalars (sum divided by length). -/
def vmean (l : List ℝ) : ℝ := l.sum / l.length

/-! ## Tensor model

A tensor is a batch: a list of per-sample flattened value lists.  Elementwise
torch operations are elementwise maps; reductions such as mean and norm fold
over every element.  The dim-1 chunk of the channel-doubled generator output
is modelled as splitting each per-sample flattened list in half. -/

abbrev Tensor := List (List ℝ)

/-- Elementwise map over a tensor. -/
def Tensor.map2d (f : ℝ → ℝ) (t : Tensor) : Tensor := t.map (List.map f)

/-- Elementwise binary zip of two same-shape tensors. -/
def Tensor.zipWith (f : ℝ → ℝ → ℝ) (a b : Tensor) : Tensor :=
  List.zipWith (List.zipWith f) a b

/-- Sum of every element of a tensor. -/
def Tensor.sum2d (t : Tensor) : ℝ := (t.map List.sum).sum

/-- Number of elements of a tensor. -/
def Tensor.numel (t : Tensor) : ℕ := (t.map List.length).sum

/-- torch .mean() over all elements. -/
def Tensor.mean (t : Tensor) : ℝ := t.sum2d / t.numel

/-- torch .sigmoid(), elementwise. -/
def Tensor.sigmoid (t : Tensor) : Tensor := t.map2d sigmoidR

/-- torch .logit(eps), elementwise. -/
def Tensor.logit (eps : ℝ) (t : Tensor) : Tensor := t.map2d (logitR eps)

/-- outputs.chunk(2, dim=1): split the channel-doubled output of the generator
into the location half mu and the log-scale half log_sigma; on the per-sample
flattened lists this is take half / drop half.  (At lines 39 and 104 the source
additionally calls .contiguous() on the chunk result; .contiguous() is a
memory-layout identity on a tensor — though note that calling it on the tuple
returned by chunk is itself a defect of the source, recorded with claim C1.) -/
def Tensor.chunk2 (t : Tensor) : Tensor × Tensor :=
  (t.map (fun row => row.take (row.length / 2)),
   t.map (fun row => row.drop (row.length / 2)))

/-- torch.norm of a tensor: the Frobenius norm, the square root of the sum of
squares of every element (used on the autograd gradients at line 96). -/
def Tensor.frobNorm (t : Tensor) : ℝ :=
  Real.sqrt ((t.map (fun row => (row.map (fun v => v ^ 2)).sum)).sum)

/-! ## Adversarial loss variants

Modelled from the spec: the loss-variant functions (hinge_d_loss,
vanilla_d_loss, least_square_d_loss) and the StyleDiscriminator are defined in
enhancing/losses/layers.py, which is absent from the sources; the spec gives
each variant a generator form taking only the fake logits and a discriminator
form taking fake and real logits, the forms of its section 4.2 table. -/

/-- The three adversarial loss variants selected at construction
(vqperceptual.py lines 71, 81-86); an unknown name is a construction-time
fatal error, so the embedded configuration is a closed enumeration. -/
inductive GANLossType where
  | hinge
  | vanilla
  | leastSquare
deriving DecidableEq

/-- Modelled from the spec: generator-form adversarial loss (one argument, the
fake logits).  hinge: -mean(logits_fake); vanilla: binary cross entropy with
logits of fake against the real label; least_square: mean((logits_fake-1)^2). -/
def genAdvLoss : GANLossType → Tensor → ℝ
  | .hinge, lf => -(lf.mean)
  | .vanilla, lf => (lf.map2d (fun x => softplusR (-x))).mean
  | .leastSquare, lf => (lf.map2d (fun x => (x - 1) ^ 2)).mean

/-- Modelled from the spec: discriminator-form adversarial loss, applied at
line 153 as self.disc_loss(logits_fake, logits_real).  hinge:
(mean(relu(1-real)) + mean(relu(1+fake))) halved; vanilla: BCE(real, 1) +
BCE(fake, 0), halved; least_square: (mean((real-1)^2) + mean(fake^2)) halved. -/
def discAdvLoss : GANLossType → Tensor → Tensor → ℝ
  | .hinge, lf, lr =>
      ((lr.map2d (fun x => reluR (1 - x))).mean
        + (lf.map2d (fun x => reluR (1 + x))).mean) / 2
  | .vanilla, lf, lr =>
      ((lr.map2d (fun x => softplusR (-x))).mean
        + (lf.map2d (fun x => softplusR x)).mean) / 2
  | .leastSquare, lf, lr =>
      ((lr.map2d (fun x => (x - 1) ^ 2)).mean
        + (lf.map2d (fun x => x ^ 2)).mean) / 2

/-! ## Module configurations -/

/-- Configuration state of VQLPIPS (vqperceptual.py lines 22-34): the four
fixed weights set in its constructor. -/
structure VQLPIPS where
  codebook_weight : ℝ
  loglaplace_weight : ℝ
  loggaussian_weight : ℝ
  perceptual_weight : ℝ

/-- Configuration state of VQLPIPSWithDiscriminator (vqperceptual.py lines
59-89): warm-up threshold, selected loss variant, the fixed weights, and the
adaptive-weighting flag.  The discriminator and perceptual collaborators are
passed to the step functions as black-box function parameters. -/
structure VQLPIPSWithDiscriminator where
  discriminator_iter_start : ℤ
  disc_loss : GANLossType
  codebook_weight : ℝ
  loglaplace_weight : ℝ
  loggaussian_weight : ℝ
  perceptual_weight : ℝ
  adversarial_weight : ℝ
  use_adaptive_adv : Bool

/-! ## Reconstruction objective (lines 103-113 and 38-45)

The perceptual collaborator P is a black-box function from two image batches
to a per-sample distance tensor whose mean is taken, per the spec. -/

/-- logit_inputs = inputs.logit(eps=1e-4) (lines 38 and 103). -/
def logitInputsOf (inputs : Tensor) : Tensor := inputs.logit (1 / 10000)

/-- mu, the location half of outputs.chunk(2, dim=1) (lines 39 and 104). -/
def muOf (outputs : Tensor) : Tensor := (outputs.chunk2).1

/-- log_sigma, the log-scale half of outputs.chunk(2, dim=1). -/
def logSigmaOf (outputs : Tensor) : Tensor := (outputs.chunk2).2

/-- ((mu - logit_inputs).abs() / log_sigma.exp() + log_sigma).mean()
(lines 41 and 109). -/
def loglaplaceLossOf (inputs outputs : Tensor) : ℝ :=
  (Tensor.zipWith (fun d s => |d| / Real.exp s + s)
    (Tensor.zipWith (fun a b => a - b) (muOf outputs) (logitInputsOf inputs))
    (logSigmaOf outputs)).mean

/-- (mu.sigmoid() - logit_inputs.sigmoid()).pow(2).mean() (lines 42 and 110). -/
def loggaussianLossOf (inputs outputs : Tensor) : ℝ :=
  (Tensor.zipWith (fun a b => (a - b) ^ 2)
    (muOf outputs).sigmoid (logitInputsOf inputs).sigmoid).mean

/-- Rescaling of an image batch from the unit interval to the interval from
-1 to 1 expected by the perceptual collaborator (t * 2 - 1). -/
def scaleShift (t : Tensor) : Tensor := t.map2d (fun x => x * 2 - 1)

/-- perceptual_loss(mu.sigmoid()*2-1, logit_inputs.sigmoid()*2-1).mean()
(lines 43 and 111), with P the black-box perceptual collaborator. -/
def perceptualLossOf (P : Tensor → Tensor → Tensor) (inputs outputs : Tensor) : ℝ :=
  (P (scaleShift (muOf outputs).sigmoid)
     (scaleShift (logitInputsOf inputs).sigmoid)).mean

/-- nll_loss of the discriminator-coupled module (line 113), the weighted sum
of the three reconstruction sub-terms.  The source line reads the attribute
self.loglogitlaplace_weight, which the constructor never assigns (it assigns
self.loglaplace_weight at line 75); the embedding uses the configured
loglaplace weight, the evident intent.  The discrepancy itself is recorded by
the theorem for claim C1 via nllLossAsWritten below. -/
def nllLossOf (L : VQLPIPSWithDiscriminator) (P : Tensor → Tensor → Tensor)
    (inputs outputs : Tensor) : ℝ :=
  L.loglaplace_weight * loglaplaceLossOf inputs outputs
    + L.loggaussian_weight * loggaussianLossOf inputs outputs
    + L.perceptual_weight * perceptualLossOf P inputs outputs

/-! ## Adaptive adversarial weighting (lines 91-99, 118-125) -/

/-- calculate_adaptive_factor (lines 91-99), as a function of the two autograd
gradients (the norms of torch.autograd.grad of nll_loss and of g_loss with
respect to last_layer): norm(nll_grads) / (norm(g_grads) + 1e-4), clamped into
the interval from 0 to 1e4.  .detach() is the identity at value level. -/
def calculate_adaptive_factor (nllGrads gGrads : Tensor) : ℝ :=
  clampR (nllGrads.frobNorm / (gGrads.frobNorm + 1 / 10000)) 0 10000

/-- Failure outcome of the generator phase: the assert at line 124 fires
(AssertionError) when the gradient computation raised RuntimeError while the
module is in training mode. -/
inductive LossError where
  | assertionError
deriving DecidableEq

/-- The try/except block of lines 118-125 computing d_weight.  The autograd
engine is abstracted as gradOracle: some (nll_grads, g_grads) when a gradient
path from both losses to last_layer exists, none when the grad call raises
RuntimeError (no gradient path).  On failure the code asserts that the module
is not in training mode and falls back to d_weight = 0. -/
def dWeightComp (L : VQLPIPSWithDiscriminator) (training : Bool)
    (gradOracle : Option (Tensor × Tensor)) : Except LossError ℝ :=
  if L.use_adaptive_adv then
    match gradOracle with
    | some grads =>
        .ok (L.adversarial_weight * calculate_adaptive_factor grads.1 grads.2)
    | none => if training then .error .assertionError else .ok 0
  else .ok L.adversarial_weight

/-- The warm-up gate (lines 127 and 152):
disc_factor = 1 if global_step >= disc_start else 0. -/
def discFactorOf (L : VQLPIPSWithDiscriminator) (global_step : ℤ) : ℝ :=
  if global_step ≥ L.discriminator_iter_start then 1 else 0

/-- g_loss = self.disc_loss(logits_fake) with
logits_fake = self.discriminator(mu.sigmoid()) (lines 115-116), D the
black-box discriminator collaborator. -/
def gLossOf (L : VQLPIPSWithDiscriminator) (D : Tensor → Tensor)
    (outputs : Tensor) : ℝ :=
  genAdvLoss L.disc_loss (D (muOf outputs).sigmoid)

/-! ## Generator phase (optimizer_idx = 0, lines 107-142) -/

/-- The generator-phase branch of VQLPIPSWithDiscriminator.forward (lines
107-142).  Returns the loss and the log record (the keys in source order; the
d_weight entry of lines 139-140 is appended when adaptive weighting is on —
the source writes that key with a malformed f-string, another defect noted
with claim C1, and the embedding uses the evidently intended key).  Log values
are detached, the identity at value level. -/
def genStep (L : VQLPIPSWithDiscriminator) (P : Tensor → Tensor → Tensor)
    (D : Tensor → Tensor) (training : Bool)
    (gradOracle : Option (Tensor × Tensor)) (codebook_loss : ℝ)
    (inputs outputs : Tensor) (global_step : ℤ) (split : String) :
    Except LossError (ℝ × List (String × ℝ)) :=
  match dWeightComp L training gradOracle with
  | .error e => .error e
  | .ok d_weight =>
    let nll_loss := nllLossOf L P inputs outputs
    let g_loss := gLossOf L D outputs
    let disc_factor := discFactorOf L global_step
    let loss := nll_loss + disc_factor * d_weight * g_loss
      + L.codebook_weight * codebook_loss
    .ok (loss,
      [(split ++ "/total_loss", loss),
       (split ++ "/quant_loss", codebook_loss),
       (split ++ "/rec_loss", nll_loss),
       (split ++ "/loglaplace_loss", loglaplaceLossOf inputs outputs),
       (split ++ "/loggaussian_loss", loggaussianLossOf inputs outputs),
       (split ++ "/perceptual_loss", perceptualLossOf P inputs outputs),
       (split ++ "/g_loss", g_loss)]
      ++ (if L.use_adaptive_adv then [(split ++ "/d_weight", d_weight)] else []))

/-! ## Discriminator phase (optimizer_idx = 1, lines 144-169) -/

/-- The recomputed real image of line 146: logit_inputs.sigmoid(), a fresh
tensor, independent of the generator phase. -/
def realOf (inputs : Tensor) : Tensor := (logitInputsOf inputs).sigmoid

/-- The recomputed fake image of line 146: mu.sigmoid(); the fake branch is
detached before the discriminator call (line 150), the identity at value
level. -/
def fakeOf (outputs : Tensor) : Tensor := (muOf outputs).sigmoid

/-- gradients.view(B,-1).norm(2, dim=1).pow(2).mean() of lines 161-164, with
gradSumD the autograd engine for the discriminator: gradSumD x is the gradient
of sum(D x) with respect to x (same shape as x). -/
def gradientsNormOf (gradSumD : Tensor → Tensor) (x : Tensor) : ℝ :=
  vmean (((gradSumD x).map
    (fun row => Real.sqrt ((row.map (fun v => v ^ 2)).sum))).map (fun n => n ^ 2))

/-- The discriminator-phase branch of VQLPIPSWithDiscriminator.forward (lines
144-169).  The log record of line 155 captures d_loss before the R1 penalty is
added at line 165; the r1_reg key is written only inside the periodic branch. -/
def discStep (L : VQLPIPSWithDiscriminator) (D gradSumD : Tensor → Tensor)
    (training : Bool) (inputs outputs : Tensor) (global_step : ℤ)
    (split : String) : ℝ × List (String × ℝ) :=
  let logits_real := D (realOf inputs)
  let logits_fake := D (fakeOf outputs)
  let disc_factor := discFactorOf L global_step
  let d_loss := disc_factor * discAdvLoss L.disc_loss logits_fake logits_real
  let log := [(split ++ "/disc_loss", d_loss),
              (split ++ "/logits_real", logits_real.mean),
              (split ++ "/logits_fake", logits_fake.mean)]
  if training = true ∧ global_step % 16 = 0 then
    let gradients_norm := gradientsNormOf gradSumD (realOf inputs)
    (d_loss + 10 * gradients_norm / 2,
     log ++ [(split ++ "/r1_reg", gradients_norm)])
  else (d_loss, log)

/-! ## VQLPIPS.forward (lines 36-56)

The discriminator-free objective; its signature takes the phase index, the
step counter and the reference layer like the coordinator, but its body never
reads them.  Lines 45 and 51 carry the same naming slips as the coordinator
(self.loglogitlaplace_weight, loglaplace_loss); the embedding follows the
evident intent, the slip being recorded with claim C1. -/
def VQLPIPS.forward (L : VQLPIPS) (P : Tensor → Tensor → Tensor)
    (codebook_loss : ℝ) (inputs outputs : Tensor)
    (optimizer_idx global_step : ℤ) (last_layer : Option Tensor)
    (split : String) : ℝ × List (String × ℝ) :=
  let nll_loss := L.loglaplace_weight * loglaplaceLossOf inputs outputs
    + L.loggaussian_weight * loggaussianLossOf inputs outputs
    + L.perceptual_weight * perceptualLossOf P inputs outputs
  let loss := nll_loss + L.codebook_weight * codebook_loss
  (loss,
   [(split ++ "/total_loss", loss),
    (split ++ "/quant_loss", codebook_loss),
    (split ++ "/rec_loss", nll_loss),
    (split ++ "/loglaplace_loss", loglaplaceLossOf inputs outputs),
    (split ++ "/loggaussian_loss", loggaussianLossOf inputs outputs),
    (split ++ "/perceptual_loss", perceptualLossOf P inputs outputs)])

/-! ## The attribute namespace read by the nll computation (claim C1)

Python resolves self.name against the attributes assigned in the constructor;
a name never assigned raises AttributeError.  The scalar weight attributes
assigned in VQLPIPSWithDiscriminator (lines 74-77 and 88) are listed here, and
the nll line is replayed against that namespace exactly as written at line
113. -/

/-- The scalar weight attributes assigned on self in the constructor of
VQLPIPSWithDiscriminator (lines 74-77 and 88). -/
def VQLPIPSWithDiscriminator.scalarAttrs (L : VQLPIPSWithDiscriminator) :
    List (String × ℝ) :=
  [("codebook_weight", L.codebook_weight),
   ("loglaplace_weight", L.loglaplace_weight),
   ("loggaussian_weight", L.loggaussian_weight),
   ("perceptual_weight", L.perceptual_weight),
   ("adversarial_weight", L.adversarial_weight)]

/-- Python attribute lookup over the scalar weight attributes: some value when
assigned, none (AttributeError) when not. -/
def VQLPIPSWithDiscriminator.getattr (L : VQLPIPSWithDiscriminator)
    (name : String) : Option ℝ :=
  ((L.scalarAttrs).find? (fun p => p.1 == name)).map (fun p => p.2)

/-- nll_loss exactly as written at line 113: it reads the attributes
loglogitlaplace_weight, loggaussian_weight and perceptual_weight of self;
none yields the AttributeError of the missing first name. -/
def nllLossAsWritten (L : VQLPIPSWithDiscriminator)
    (loglogitlaplace_loss loggaussian_loss perceptual_loss : ℝ) : Option ℝ := do
  let w1 ← L.getattr "loglogitlaplace_weight"
  let w2 ← L.getattr "loggaussian_weight"
  let w3 ← L.getattr "perceptual_weight"
  pure (w1 * loglogitlaplace_loss + w2 * loggaussian_loss + w3 * perceptual_loss)

/-! ## Tensor-object heap (claim C9)

To state the frame property — no coordinator call mutates the tensors handed
in by the caller — tensor objects are given identity: a heap is a list of
tensor objects, referenced by index; every torch operation of the
discriminator phase allocates a fresh object, and the single in-place
operation of the phase, inputs.requires_grad_() at line 147, updates the
requires_grad flag of the object it is applied to.  Scalar loss temporaries,
which no operation ever mutates, are not materialised on the heap. -/

/-- A tensor object: its value and its requires_grad flag (the flag records an
explicit requires_grad_() call; autograd propagation of the flag through
operations plays no role in the claims and is left false on fresh results). -/
structure TensorObj where
  data : Tensor
  requires_grad : Bool
deriving DecidableEq

/-- The heap of live tensor objects; indices are object identities. -/
abbrev Heap := List TensorObj

/-- Allocation of a fresh tensor object holding the given value: every
non-in-place torch operation returns such a fresh object. -/
def halloc (h : Heap) (d : Tensor) : Heap × ℕ := (h ++ [⟨d, false⟩], h.length)

/-- The value held by a heap cell (an out-of-range index reads as an empty
tensor; the theorems quantify over arbitrary indices). -/
def hdata (h : Heap) (i : ℕ) : Tensor := ((h.getD i ⟨[], false⟩)).data

/-- In-place requires_grad_(): updates the flag of the addressed object. -/
def hRequiresGrad (h : Heap) (i : ℕ) : Heap :=
  match h[i]? with
  | some t => h.set i ⟨t.data, true⟩
  | none => h

/-- The discriminator-phase branch replayed over the tensor-object heap,
lines 103-104 and 144-168: logit and chunk allocate (line 103-104), the two
sigmoids of line 146 allocate fresh real and fake objects, line 147 flips the
requires_grad flag of the fresh real object in place, the discriminator calls
and the detach of lines 149-150 allocate, and the periodic branch allocates
the gradients object (line 161).  Returns the final heap together with the
loss and log of the phase. -/
def discStepHeap (L : VQLPIPSWithDiscriminator) (D gradSumD : Tensor → Tensor)
    (training : Bool) (h : Heap) (iInputs iOutputs : ℕ) (global_step : ℤ)
    (split : String) : Heap × ℝ × List (String × ℝ) :=
  let dInputs := hdata h iInputs
  let dOutputs := hdata h iOutputs
  let dLogit := dInputs.logit (1 / 10000)
  let (h1, _iLogit) := halloc h dLogit
  let dMu := (dOutputs.chunk2).1
  let dLogSigma := (dOutputs.chunk2).2
  let (h2, _iMu) := halloc h1 dMu
  let (h3, _iLogSigma) := halloc h2 dLogSigma
  let dReal := dLogit.sigmoid
  let dFake := dMu.sigmoid
  let (h4, iReal) := halloc h3 dReal
  let (h5, _iFake) := halloc h4 dFake
  let h6 := hRequiresGrad h5 iReal
  let logits_real := D dReal
  let logits_fake := D dFake
  let (h7, _iLogitsReal) := halloc h6 logits_real
  let (h8, _iFakeDetached) := halloc h7 dFake
  let (h9, _iLogitsFake) := halloc h8 logits_fake
  let disc_factor := discFactorOf L global_step
  let d_loss := disc_factor * discAdvLoss L.disc_loss logits_fake logits_real
  let log := [(split ++ "/disc_loss", d_loss),
              (split ++ "/logits_real", logits_real.mean),
              (split ++ "/logits_fake", logits_fake.mean)]
  if training = true ∧ global_step % 16 = 0 then
    let dGradients := gradSumD dReal
    let (h10, _iGradients) := halloc h9 dGradients
    let gradients_norm := gradientsNormOf gradSumD dReal
    (h10, d_loss + 10 * gradients_norm / 2,
     log ++ [(split ++ "/r1_reg", gradients_norm)])
  else (h9, d_loss, log)

/-- The fresh tensor objects the discriminator phase appends to the heap, in
allocation order; only the real object carries the requires_grad flag. -/
def discStepFresh (D gradSumD : Tensor → Tensor) (training : Bool)
    (h : Heap) (iInputs iOutputs : ℕ) (global_step : ℤ) : List TensorObj :=
  let dInputs := hdata h iInputs
  let dOutputs := hdata h iOutputs
  let dLogit := dInputs.logit (1 / 10000)
  let dMu := (dOutputs.chunk2).1
  let dReal := dLogit.sigmoid
  let dFake := dMu.sigmoid
  [⟨dLogit, false⟩, ⟨dMu, false⟩, ⟨(dOutputs.chunk2).2, false⟩,
   ⟨dReal, true⟩, ⟨dFake, false⟩,
   ⟨D dReal, false⟩, ⟨dFake, false⟩, ⟨D dFake, false⟩]
  ++ (if training = true ∧ global_step % 16 = 0
      then [⟨gradSumD dReal, false⟩] else [])

/-! ## Helper lemmas -/

/-- Appending a fixed string on the left is injective (used to tell log keys
with the same split tag apart). -/
theorem strAppendCancelLeft {s t u : String} (h : s ++ t = s ++ u) : t = u := by
  have hd : s.data ++ t.data = s.data ++ u.data := congrArg String.data h
  have h2 : t.data = u.data := List.append_cancel_left hd
  cases t; cases u; cases h2; rfl

/-- The epsilon-clamped logit followed by the sigmoid is the identity strictly
inside the clamped interval (scalar form). -/
theorem sigmoidR_logitR_eq (x : ℝ) (h1 : 1 / 10000 < x)
    (h2 : x < 1 - 1 / 10000) : sigmoidR (logitR (1 / 10000) x) = x := by
  have hx : 0 < x := lt_trans (by norm_num) h1
  have h1x : 0 < 1 - x := by linarith
  have hclamp : clampR x (1 / 10000) (1 - 1 / 10000) = x := by
    unfold clampR
    rw [min_eq_left h2.le, max_eq_right h1.le]
  have ht : 0 < x / (1 - x) := div_pos hx h1x
  simp only [logitR, hclamp, sigmoidR, Real.exp_neg, Real.exp_log ht]
  rw [inv_div]
  field_simp

/-- The literal translation of lines 161-164 (per-sample 2-norm, then square,
then batch mean) equals the batch mean of the per-sample squared L2 norms. -/
theorem gradientsNormOf_eq (gradSumD : Tensor → Tensor) (x : Tensor) :
    gradientsNormOf gradSumD x =
      vmean ((gradSumD x).map (fun row => (row.map (fun v => v ^ 2)).sum)) := by
  unfold gradientsNormOf
  rw [List.map_map]
  congr 1
  apply List.map_congr_left
  intro row _
  exact Real.sq_sqrt (List.sum_nonneg (by
    intro a ha
    obtain ⟨v, _, rfl⟩ := List.mem_map.mp ha
    exact sq_nonneg v))

/-- The adaptive factor is the clamp of the gradient-norm ratio, hence lies in
the interval from 0 to 1e4. -/
theorem calculate_adaptive_factor_bounds (ng gg : Tensor) :
    0 ≤ calculate_adaptive_factor ng gg ∧ calculate_adaptive_factor ng gg ≤ 10000 := by
  unfold calculate_adaptive_factor clampR
  exact ⟨le_max_left 0 _, max_le (by norm_num) (min_le_right _ _)⟩

/-- With a vanishing g-grad norm and an nll-grad norm of at least one, the
adaptive factor saturates at the upper clamp bound 1e4. -/
theorem calculate_adaptive_factor_saturates (ng gg : Tensor)
    (hg : gg.frobNorm = 0) (hn : 1 ≤ ng.frobNorm) :
    calculate_adaptive_factor ng gg = 10000 := by
  unfold calculate_adaptive_factor clampR
  rw [hg]
  have : (10000 : ℝ) ≤ ng.frobNorm / (0 + 1 / 10000) := by
    rw [zero_add, le_div_iff₀ (by norm_num : (0 : ℝ) < 1 / 10000)]
    have h1 : (10000 : ℝ) * (1 / 10000) = 1 := by norm_num
    rw [h1]
    exact hn
  rw [min_eq_right this, max_eq_right (by norm_num)]

/-! ## Claim theorems -/

/-- Claim C1 (code defect): the generator-phase nll_loss is claimed to be the
weighted sum of the three reconstruction sub-terms with the configured fixed
weights, but line 113 reads the attribute loglogitlaplace_weight, which the
constructor never assigns (it assigns loglaplace_weight at line 75), so the
attribute lookup fails for every generator-phase call instead of producing
the claimed weighted sum; the configured weight is present under its
constructor name, which is the evident intent. -/
theorem c1_nll_weight_attribute_missing :
    ∀ (L : VQLPIPSWithDiscriminator) (lap gau per : ℝ),
      nllLossAsWritten L lap gau per = none ∧
      L.getattr "loglaplace_weight" = some L.loglaplace_weight := by
  intro L lap gau per
  exact ⟨rfl, rfl⟩

/-- Claim C8: for inputs strictly inside the interval from eps to 1 - eps with
eps = 1e-4, the epsilon-clamped logit transform followed by the sigmoid is the
identity, so the real image sigmoid(logit(inputs)) recomputed by the
discriminator phase equals the original inputs on that range. -/
theorem c8_logit_sigmoid_roundtrip (t : Tensor)
    (h : ∀ row ∈ t, ∀ x ∈ row, 1 / 10000 < x ∧ x < 1 - 1 / 10000) :
    realOf t = t := by
  unfold realOf logitInputsOf Tensor.logit Tensor.sigmoid Tensor.map2d
  rw [List.map_map]
  have hrow : ∀ row ∈ t, (List.map sigmoidR ∘ List.map (logitR (1 / 10000))) row
      = id row := by
    intro row hr
    simp only [Function.comp_apply, List.map_map, id]
    have hpt : ∀ x ∈ row, (sigmoidR ∘ logitR (1 / 10000)) x = id x := fun x hx =>
      sigmoidR_logitR_eq x (h row hr x hx).1 (h row hr x hx).2
    rw [List.map_congr_left hpt, List.map_id]
  rw [List.map_congr_left hrow, List.map_id]

/-- Witness for C8 at the concrete one-pixel batch holding one half. -/
theorem c8_logit_sigmoid_roundtrip_witness :
    realOf [[(1 : ℝ) / 2]] = [[(1 : ℝ) / 2]] := by
  apply c8_logit_sigmoid_roundtrip
  intro row hr x hx
  rw [List.mem_singleton] at hr
  subst hr
  rw [List.mem_singleton] at hx
  subst hx
  norm_num

/-! ### Concrete collaborator and configuration instances for witnesses -/

/-- A concrete perceptual collaborator (black box, any function works). -/
def P0 : Tensor → Tensor → Tensor := fun _ _ => []

/-- A concrete discriminator: the identity on the image batch. -/
def D0 : Tensor → Tensor := fun t => t

/-- A concrete autograd engine for the discriminator: the gradient of
sum(D0 x) with respect to a one-pixel batch is the constant 2 here (any
nonzero value exhibits a nonzero R1 penalty). -/
def Gc2 : Tensor → Tensor := fun _ => [[2]]

/-- A hinge-variant configuration with warm-up threshold 1, unit weights and
adaptive weighting off. -/
def Lc2 : VQLPIPSWithDiscriminator :=
  { discriminator_iter_start := 1, disc_loss := .hinge, codebook_weight := 1,
    loglaplace_weight := 1, loggaussian_weight := 1, perceptual_weight := 1,
    adversarial_weight := 1, use_adaptive_adv := false }

/-- Claim C2, counterexample: at global_step 0 with disc_start 1 (so inside
the warm-up window) a training-mode discriminator call with step divisible by
16 returns a nonzero loss — the R1 penalty of lines 160-165 is not gated by
disc_factor — contradicting the claim that the discriminator loss is
identically zero before disc_start for any discriminator output. -/
theorem c2_counterexample :
    (0 : ℤ) < Lc2.discriminator_iter_start ∧
    (discStep Lc2 D0 Gc2 true [[(1 : ℝ) / 2]] [[(0 : ℝ), 0]] 0 "train").1 ≠ 0 := by
  constructor
  · norm_num [Lc2]
  · have hgn : gradientsNormOf Gc2 (realOf [[(1 : ℝ) / 2]]) = 4 := by
      unfold gradientsNormOf Gc2
      simp only [List.map_cons, List.map_nil, List.sum_cons, List.sum_nil]
      rw [add_zero, Real.sq_sqrt (by norm_num : (0 : ℝ) ≤ (2 : ℝ) ^ 2)]
      unfold vmean
      norm_num
    have hdf : discFactorOf Lc2 0 = 0 := by
      unfold discFactorOf
      rw [if_neg (by norm_num [Lc2])]
    simp only [discStep]
    rw [if_pos (show (True ∧ (0 : ℤ) % 16 = 0) from ⟨trivial, by decide⟩)]
    dsimp only
    rw [hdf, hgn, zero_mul, zero_add]
    norm_num

/-- Claim C2 (amended): before disc_start the warm-up gate zeroes the
adversarial term of both phases — the generator loss contains no g_loss
contribution, and the discriminator loss is zero unless the call is in a
training context at a step divisible by 16, in which case it equals the R1
penalty alone (the penalty of lines 160-165 is applied regardless of the
warm-up gate). -/
theorem c2_warmup_gate_amended :
    (∀ (L : VQLPIPSWithDiscriminator) (D G : Tensor → Tensor) (training : Bool)
      (inputs outputs : Tensor) (gs : ℤ) (sp : String),
      gs < L.discriminator_iter_start → ¬(training = true ∧ gs % 16 = 0) →
      (discStep L D G training inputs outputs gs sp).1 = 0) ∧
    (∀ (L : VQLPIPSWithDiscriminator) (D G : Tensor → Tensor) (training : Bool)
      (inputs outputs : Tensor) (gs : ℤ) (sp : String),
      gs < L.discriminator_iter_start → training = true → gs % 16 = 0 →
      (discStep L D G training inputs outputs gs sp).1 =
        10 * gradientsNormOf G (realOf inputs) / 2) ∧
    (∀ (L : VQLPIPSWithDiscriminator) (P : Tensor → Tensor → Tensor)
      (D : Tensor → Tensor) (training : Bool)
      (gradOracle : Option (Tensor × Tensor)) (cb : ℝ)
      (inputs outputs : Tensor) (gs : ℤ) (sp : String)
      (p : ℝ × List (String × ℝ)),
      gs < L.discriminator_iter_start →
      genStep L P D training gradOracle cb inputs outputs gs sp = .ok p →
      p.1 = nllLossOf L P inputs outputs + L.codebook_weight * cb) := by
  refine ⟨?_, ?_, ?_⟩
  · intro L D G training inputs outputs gs sp hlt hbranch
    have hdf : discFactorOf L gs = 0 := by
      unfold discFactorOf
      rw [if_neg (not_le.mpr hlt)]
    simp only [discStep]
    rw [if_neg hbranch]
    dsimp only
    rw [hdf, zero_mul]
  · intro L D G training inputs outputs gs sp hlt htr hmod
    have hdf : discFactorOf L gs = 0 := by
      unfold discFactorOf
      rw [if_neg (not_le.mpr hlt)]
    simp [discStep, hdf, htr, hmod]
  · intro L P D training gradOracle cb inputs outputs gs sp p hlt hok
    have hdf : discFactorOf L gs = 0 := by
      unfold discFactorOf
      rw [if_neg (not_le.mpr hlt)]
    cases hw : dWeightComp L training gradOracle with
    | error e => rw [genStep.eq_def, hw] at hok; cases hok
    | ok dw =>
      rw [genStep.eq_def, hw] at hok
      simp only [Except.ok.injEq] at hok
      subst hok
      simp [hdf]

/-- Witness for the amended C2 at concrete inputs: both discriminator cases
(penalty absent at a non-training call, penalty alone at a training call with
step 0) and the generator case inside the warm-up window. -/
theorem c2_warmup_gate_amended_witness :
    (discStep Lc2 D0 Gc2 false [[(1 : ℝ) / 2]] [[(0 : ℝ), 0]] 0 "train").1 = 0 ∧
    (discStep Lc2 D0 Gc2 true [[(1 : ℝ) / 2]] [[(0 : ℝ), 0]] 0 "train").1 =
      10 * gradientsNormOf Gc2 (realOf [[(1 : ℝ) / 2]]) / 2 ∧
    ((genStep Lc2 P0 D0 false none 0 [[(1 : ℝ) / 2]] [[(0 : ℝ), 0]] 0
        "train").toOption.getD (0, [])).1 =
      nllLossOf Lc2 P0 [[(1 : ℝ) / 2]] [[(0 : ℝ), 0]] + Lc2.codebook_weight * 0 :=
  ⟨c2_warmup_gate_amended.1 Lc2 D0 Gc2 false _ _ 0 "train" (by norm_num [Lc2])
      (by simp),
   c2_warmup_gate_amended.2.1 Lc2 D0 Gc2 true _ _ 0 "train" (by norm_num [Lc2])
      rfl (by decide),
   c2_warmup_gate_amended.2.2 Lc2 P0 D0 false none 0 _ _ 0 "train" _
      (by norm_num [Lc2]) rfl⟩

/-- Claim C3: in every generator-phase call that returns, the logged g_loss is
the configured generator-form adversarial loss of
logits_fake = discriminator(sigmoid(mu)); with the hinge variant it equals
-mean(logits_fake). -/
theorem c3_hinge_g_loss (L : VQLPIPSWithDiscriminator)
    (P : Tensor → Tensor → Tensor) (D : Tensor → Tensor) (training : Bool)
    (gradOracle : Option (Tensor × Tensor)) (cb : ℝ) (inputs outputs : Tensor)
    (gs : ℤ) (sp : String) (p : ℝ × List (String × ℝ))
    (hvar : L.disc_loss = GANLossType.hinge)
    (hok : genStep L P D training gradOracle cb inputs outputs gs sp = .ok p) :
    (sp ++ "/g_loss", -(Tensor.mean (D (Tensor.sigmoid (muOf outputs))))) ∈ p.2 := by
  cases hw : dWeightComp L training gradOracle with
  | error e => rw [genStep.eq_def, hw] at hok; cases hok
  | ok dw =>
    rw [genStep.eq_def, hw] at hok
    simp only [Except.ok.injEq] at hok
    subst hok
    simp [gLossOf, hvar, genAdvLoss]

/-- Witness for C3 at concrete inputs with the hinge configuration. -/
theorem c3_hinge_g_loss_witness :
    ("train" ++ "/g_loss",
      -(Tensor.mean (D0 (Tensor.sigmoid (muOf [[(0 : ℝ), 0]]))))) ∈
      ((genStep Lc2 P0 D0 false none 0 [[(1 : ℝ) / 2]] [[(0 : ℝ), 0]] 0
          "train").toOption.getD (0, [])).2 :=
  c3_hinge_g_loss Lc2 P0 D0 false none 0 _ _ 0 "train" _ rfl rfl

/-- Claim C4: the R1 penalty fires exactly when the module is training and the
step is divisible by 16; when it fires the returned loss gains 10/2 times the
batch mean of the per-sample squared L2 norms of the gradients of
sum(logits_real) with respect to the recomputed real tensor and the unscaled
mean is logged under the r1_reg key, which is otherwise absent. -/
theorem c4_r1_penalty (L : VQLPIPSWithDiscriminator) (D G : Tensor → Tensor)
    (training : Bool) (inputs outputs : Tensor) (gs : ℤ) (sp : String) :
    (((sp ++ "/r1_reg") ∈
        ((discStep L D G training inputs outputs gs sp).2.map Prod.fst)) ↔
      (training = true ∧ gs % 16 = 0)) ∧
    (training = true → gs % 16 = 0 →
      (discStep L D G training inputs outputs gs sp).1 =
        discFactorOf L gs
            * discAdvLoss L.disc_loss (D (fakeOf outputs)) (D (realOf inputs))
          + 10 / 2
            * vmean ((G (realOf inputs)).map
                (fun row => (row.map (fun v => v ^ 2)).sum)) ∧
      ((sp ++ "/r1_reg"),
        vmean ((G (realOf inputs)).map
          (fun row => (row.map (fun v => v ^ 2)).sum))) ∈
        (discStep L D G training inputs outputs gs sp).2) ∧
    (¬(training = true ∧ gs % 16 = 0) →
      (discStep L D G training inputs outputs gs sp).1 =
        discFactorOf L gs
          * discAdvLoss L.disc_loss (D (fakeOf outputs)) (D (realOf inputs))) := by
  refine ⟨?_, ?_, ?_⟩
  · by_cases hb : training = true ∧ gs % 16 = 0
    · simp [discStep, hb]
    · simp only [discStep, if_neg hb]
      simp only [List.map_cons, List.map_nil, List.mem_cons, List.not_mem_nil,
        or_false]
      constructor
      · rintro (h | h | h) <;>
          exact absurd (strAppendCancelLeft h) (by decide)
      · intro h
        exact absurd h hb
  · intro htr hmod
    have hb : training = true ∧ gs % 16 = 0 := ⟨htr, hmod⟩
    constructor
    · simp only [discStep, if_pos hb]
      rw [gradientsNormOf_eq]
      ring
    · simp only [discStep, if_pos hb]
      rw [gradientsNormOf_eq]
      simp
  · intro hb
    simp only [discStep]
    rw [if_neg hb]

/-- Witness for C4 at a training call with global_step 16 (the penalty fires
and the r1_reg key is present). -/
theorem c4_r1_penalty_witness :
    (("train" ++ "/r1_reg") ∈
      ((discStep Lc2 D0 Gc2 true [[(1 : ℝ) / 2]] [[(0 : ℝ), 0]] 16
          "train").2.map Prod.fst)) ∧
    (discStep Lc2 D0 Gc2 true [[(1 : ℝ) / 2]] [[(0 : ℝ), 0]] 16 "train").1 =
      discFactorOf Lc2 16
          * discAdvLoss Lc2.disc_loss (D0 (fakeOf [[(0 : ℝ), 0]]))
              (D0 (realOf [[(1 : ℝ) / 2]]))
        + 10 / 2
          * vmean ((Gc2 (realOf [[(1 : ℝ) / 2]])).map
              (fun row => (row.map (fun v => v ^ 2)).sum)) ∧
    (("train" ++ "/r1_reg"),
      vmean ((Gc2 (realOf [[(1 : ℝ) / 2]])).map
        (fun row => (row.map (fun v => v ^ 2)).sum))) ∈
      (discStep Lc2 D0 Gc2 true [[(1 : ℝ) / 2]] [[(0 : ℝ), 0]] 16 "train").2 :=
  ⟨(c4_r1_penalty Lc2 D0 Gc2 true _ _ 16 "train").1.mpr ⟨rfl, by decide⟩,
   ((c4_r1_penalty Lc2 D0 Gc2 true _ _ 16 "train").2.1 rfl (by decide)).1,
   ((c4_r1_penalty Lc2 D0 Gc2 true _ _ 16 "train").2.1 rfl (by decide)).2⟩

/-- A configuration like Lc2 but with warm-up threshold 0 and adaptive
weighting on. -/
def L5 : VQLPIPSWithDiscriminator :=
  { discriminator_iter_start := 0, disc_loss := .hinge, codebook_weight := 1,
    loglaplace_weight := 1, loggaussian_weight := 1, perceptual_weight := 1,
    adversarial_weight := 1, use_adaptive_adv := true }

/-- Claim C5: with adaptive weighting on and a working gradient path, the
adaptive factor is clamp(norm(nll_grad) / (norm(g_grad) + 1e-4), 0, 1e4), the
loss uses d_weight = adversarial_weight * adapt_factor, the factor always lies
between 0 and 1e4, and it saturates at 1e4 when the g-grad norm vanishes while
the nll-grad norm is at least one. -/
theorem c5_adaptive_weight (L : VQLPIPSWithDiscriminator)
    (P : Tensor → Tensor → Tensor) (D : Tensor → Tensor) (training : Bool)
    (ng gg : Tensor) (cb : ℝ) (inputs outputs : Tensor) (gs : ℤ) (sp : String)
    (p : ℝ × List (String × ℝ))
    (hadapt : L.use_adaptive_adv = true)
    (hok : genStep L P D training (some (ng, gg)) cb inputs outputs gs sp = .ok p) :
    p.1 = nllLossOf L P inputs outputs
        + discFactorOf L gs
            * (L.adversarial_weight * calculate_adaptive_factor ng gg)
            * gLossOf L D outputs
        + L.codebook_weight * cb ∧
    0 ≤ calculate_adaptive_factor ng gg ∧
    calculate_adaptive_factor ng gg ≤ 10000 ∧
    (Tensor.frobNorm gg = 0 → 1 ≤ Tensor.frobNorm ng →
      calculate_adaptive_factor ng gg = 10000) := by
  have hw : dWeightComp L training (some (ng, gg)) =
      .ok (L.adversarial_weight * calculate_adaptive_factor ng gg) := by
    unfold dWeightComp
    rw [hadapt]
    rfl
  rw [genStep.eq_def, hw] at hok
  simp only [Except.ok.injEq] at hok
  subst hok
  exact ⟨rfl, (calculate_adaptive_factor_bounds ng gg).1,
    (calculate_adaptive_factor_bounds ng gg).2,
    fun hg hn => calculate_adaptive_factor_saturates ng gg hg hn⟩

/-- Witness for C5 at concrete gradients: the nll gradient is the one-element
batch holding 1 (norm one), the g gradient is empty (norm zero), so the
factor saturates at 1e4. -/
theorem c5_adaptive_weight_witness :
    ((genStep L5 P0 D0 false (some ([[(1 : ℝ)]], [])) 0 [[(1 : ℝ) / 2]]
        [[(0 : ℝ), 0]] 0 "train").toOption.getD (0, [])).1 =
      nllLossOf L5 P0 [[(1 : ℝ) / 2]] [[(0 : ℝ), 0]]
        + discFactorOf L5 0
            * (L5.adversarial_weight * calculate_adaptive_factor [[(1 : ℝ)]] [])
            * gLossOf L5 D0 [[(0 : ℝ), 0]]
        + L5.codebook_weight * 0 ∧
    0 ≤ calculate_adaptive_factor [[(1 : ℝ)]] [] ∧
    calculate_adaptive_factor [[(1 : ℝ)]] [] ≤ 10000 ∧
    calculate_adaptive_factor [[(1 : ℝ)]] [] = 10000 := by
  obtain ⟨h1, h2, h3, h4⟩ := c5_adaptive_weight L5 P0 D0 false [[(1 : ℝ)]] []
    0 [[(1 : ℝ) / 2]] [[(0 : ℝ), 0]] 0 "train"
    ((genStep L5 P0 D0 false (some ([[(1 : ℝ)]], [])) 0 [[(1 : ℝ) / 2]]
        [[(0 : ℝ), 0]] 0 "train").toOption.getD (0, [])) rfl rfl
  refine ⟨h1, h2, h3, h4 ?_ ?_⟩
  · unfold Tensor.frobNorm
    simp
  · unfold Tensor.frobNorm
    norm_num

/-- Claim C6: with adaptive weighting on and no gradient path (the autograd
call raises), an evaluation-mode call recovers with d_weight = 0 and returns
normally, while a training-mode call fails with the assertion error of line
124 instead of silently defaulting. -/
theorem c6_grad_failure_policy (L : VQLPIPSWithDiscriminator)
    (P : Tensor → Tensor → Tensor) (D : Tensor → Tensor) (cb : ℝ)
    (inputs outputs : Tensor) (gs : ℤ) (sp : String)
    (hadapt : L.use_adaptive_adv = true) :
    (∃ log, genStep L P D false none cb inputs outputs gs sp =
      .ok (nllLossOf L P inputs outputs
            + discFactorOf L gs * 0 * gLossOf L D outputs
            + L.codebook_weight * cb, log)) ∧
    genStep L P D true none cb inputs outputs gs sp = .error .assertionError := by
  have hwf : dWeightComp L false none = .ok 0 := by
    unfold dWeightComp
    rw [hadapt]
    rfl
  have hwt : dWeightComp L true none = .error .assertionError := by
    unfold dWeightComp
    rw [hadapt]
    rfl
  exact ⟨⟨_, by rw [genStep.eq_def, hwf]⟩, by rw [genStep.eq_def, hwt]⟩

/-- Witness for C6 at the adaptive configuration L5 and concrete tensors. -/
theorem c6_grad_failure_policy_witness :
    (∃ log, genStep L5 P0 D0 false none 0 [[(1 : ℝ) / 2]] [[(0 : ℝ), 0]] 0
        "train" =
      .ok (nllLossOf L5 P0 [[(1 : ℝ) / 2]] [[(0 : ℝ), 0]]
            + discFactorOf L5 0 * 0 * gLossOf L5 D0 [[(0 : ℝ), 0]]
            + L5.codebook_weight * 0, log)) ∧
    genStep L5 P0 D0 true none 0 [[(1 : ℝ) / 2]] [[(0 : ℝ), 0]] 0 "train" =
      .error .assertionError :=
  c6_grad_failure_policy L5 P0 D0 0 [[(1 : ℝ) / 2]] [[(0 : ℝ), 0]] 0 "train" rfl

/-- Claim C7: a generator-phase call with adversarial_weight = 0 that returns
a loss returns exactly nll_loss + codebook_weight * codebook_loss, whatever
the warm-up gate, the discriminator output and the adaptive flag are. -/
theorem c7_zero_adversarial_weight (L : VQLPIPSWithDiscriminator)
    (P : Tensor → Tensor → Tensor) (D : Tensor → Tensor) (training : Bool)
    (gradOracle : Option (Tensor × Tensor)) (cb : ℝ) (inputs outputs : Tensor)
    (gs : ℤ) (sp : String) (p : ℝ × List (String × ℝ))
    (hzero : L.adversarial_weight = 0)
    (hok : genStep L P D training gradOracle cb inputs outputs gs sp = .ok p) :
    p.1 = nllLossOf L P inputs outputs + L.codebook_weight * cb := by
  cases hw : dWeightComp L training gradOracle with
  | error e => rw [genStep.eq_def, hw] at hok; cases hok
  | ok dw =>
    have hdw : dw = 0 := by
      unfold dWeightComp at hw
      by_cases ha : L.use_adaptive_adv = true
      · rw [if_pos ha] at hw
        cases gradOracle with
        | some grads =>
          dsimp only at hw
          simp only [Except.ok.injEq] at hw
          rw [← hw, hzero, zero_mul]
        | none =>
          cases training with
          | true => rw [if_pos rfl] at hw; cases hw
          | false =>
            rw [if_neg (by simp)] at hw
            simp only [Except.ok.injEq] at hw
            exact hw.symm
      · rw [if_neg ha] at hw
        simp only [Except.ok.injEq] at hw
        rw [← hw, hzero]
    rw [genStep.eq_def, hw] at hok
    simp only [Except.ok.injEq] at hok
    subst hok
    dsimp only
    rw [hdw, mul_zero, zero_mul, add_zero]

/-- A configuration with adversarial_weight 0 for the C7 witness. -/
def L7 : VQLPIPSWithDiscriminator :=
  { discriminator_iter_start := 0, disc_loss := .hinge, codebook_weight := 1,
    loglaplace_weight := 1, loggaussian_weight := 1, perceptual_weight := 1,
    adversarial_weight := 0, use_adaptive_adv := false }

/-- Witness for C7 at concrete inputs past the warm-up threshold (so the gate
is open and only the zero adversarial weight removes the term). -/
theorem c7_zero_adversarial_weight_witness :
    ((genStep L7 P0 D0 false none 0 [[(1 : ℝ) / 2]] [[(0 : ℝ), 0]] 5
        "train").toOption.getD (0, [])).1 =
      nllLossOf L7 P0 [[(1 : ℝ) / 2]] [[(0 : ℝ), 0]] + L7.codebook_weight * 0 :=
  c7_zero_adversarial_weight L7 P0 D0 false none 0 [[(1 : ℝ) / 2]]
    [[(0 : ℝ), 0]] 5 "train"
    ((genStep L7 P0 D0 false none 0 [[(1 : ℝ) / 2]] [[(0 : ℝ), 0]] 5
        "train").toOption.getD (0, [])) rfl rfl

/-- requires_grad_() applied at an offset inside the freshly appended region
of a heap rewrites only that region. -/
theorem hRequiresGrad_append (h l : Heap) (k : ℕ) (o : TensorObj)
    (hk : l[k]? = some o) :
    hRequiresGrad (h ++ l) (h.length + k) = h ++ l.set k ⟨o.data, true⟩ := by
  unfold hRequiresGrad
  rw [List.getElem?_append_right (Nat.le_add_right _ _), Nat.add_sub_cancel_left,
    hk]
  dsimp only
  rw [List.set_append_right _ _ (Nat.le_add_right _ _), Nat.add_sub_cancel_left]

/-- Claim C9: the discriminator phase mutates no pre-existing tensor object:
it recomputes the real and fake images as fresh tensors, its single in-place
operation — requires_grad_() at line 147 — targets the fresh real tensor, and
the fake branch is detached into a fresh grad-free object; the final heap is
the caller heap extended by the fresh objects, so the tensors the caller
passed (inputs, outputs, and anything the generator phase of the same step
allocated before the call) are unchanged at their indices. -/
theorem c9_no_caller_mutation (L : VQLPIPSWithDiscriminator)
    (D gradSumD : Tensor → Tensor) (training : Bool) (h : Heap)
    (iInputs iOutputs : ℕ) (gs : ℤ) (sp : String) :
    (discStepHeap L D gradSumD training h iInputs iOutputs gs sp).1 =
      h ++ discStepFresh D gradSumD training h iInputs iOutputs gs ∧
    ∀ j, j < h.length →
      ((discStepHeap L D gradSumD training h iInputs iOutputs gs sp).1)[j]? =
        h[j]? := by
  have hheap : (discStepHeap L D gradSumD training h iInputs iOutputs gs sp).1 =
      h ++ discStepFresh D gradSumD training h iInputs iOutputs gs := by
    by_cases hb : training = true ∧ gs % 16 = 0
    · simp only [discStepHeap, discStepFresh, halloc, if_pos hb]
      simp only [List.append_assoc, List.singleton_append, List.cons_append,
        List.nil_append, List.length_append, List.length_cons, List.length_nil]
      rw [show h.length + (1 + (1 + 1)) = h.length + 3 by ring]
      rw [hRequiresGrad_append h _ 3 _ rfl]
      simp [List.append_assoc]
    · simp only [discStepHeap, discStepFresh, halloc, if_neg hb]
      simp only [List.append_assoc, List.singleton_append, List.cons_append,
        List.nil_append, List.length_append, List.length_cons, List.length_nil]
      rw [show h.length + (1 + (1 + 1)) = h.length + 3 by ring]
      rw [hRequiresGrad_append h _ 3 _ rfl]
      simp [List.append_assoc]
  exact ⟨hheap, fun j hj => by rw [hheap]; exact List.getElem?_append_left hj⟩

/-- Witness for C9: a one-cell caller heap (the inputs tensor at index 0)
survives a training discriminator call untouched. -/
theorem c9_no_caller_mutation_witness :
    ((discStepHeap Lc2 D0 Gc2 true [⟨[[(1 : ℝ) / 2]], false⟩] 0 0 0
        "train").1)[0]? = some ⟨[[(1 : ℝ) / 2]], false⟩ := by
  rw [(c9_no_caller_mutation Lc2 D0 Gc2 true [⟨[[(1 : ℝ) / 2]], false⟩] 0 0 0
    "train").2 0 (by norm_num)]
  rfl

/-- Claim C10: VQLPIPS.forward reads neither the phase index, nor the step
counter, nor the reference tensor; two calls agreeing on codebook_loss,
inputs and outputs return identical loss and log values. -/
theorem c10_vqlpips_ignores_phase_step_layer
    (L : VQLPIPS) (P : Tensor → Tensor → Tensor) (cb : ℝ)
    (inputs outputs : Tensor) (oi gs oi2 gs2 : ℤ) (ll ll2 : Option Tensor)
    (sp : String) :
    VQLPIPS.forward L P cb inputs outputs oi gs ll sp =
      VQLPIPS.forward L P cb inputs outputs oi2 gs2 ll2 sp := rfl

end VQPerc
